import Mathlib

/-!
Verification of the BigQuery usage-extraction core
(`metadata-ingestion/src/datahub/ingestion/source/bigquery_v2/usage.py`).

The Python module is shallowly embedded below.  Persisted `FileBackedDict`
tables are modelled as association lists with Python-dict semantics
(lookup finds the stored value, assignment upserts).  `datetime` values are
modelled as integers (epoch milliseconds); `uuid.uuid4()` is modelled as a
counter minting content-independent fresh keys; `hashlib.md5` digests are
modelled by an arbitrary function parameter `md5f : String → String`.
Everything else is translated branch-for-branch from the source.
-/

set_option autoImplicit false

/-- Python-dict lookup on an association list: first entry with the key. -/
def alistGet {α : Type} (m : List (String × α)) (k : String) : Option α :=
  match m with
  | [] => none
  | (k', v) :: rest => if k' = k then some v else alistGet rest k

/-- Python-dict assignment on an association list: upsert, latest write wins. -/
def alistInsert {α : Type} (m : List (String × α)) (k : String) (v : α) :
    List (String × α) :=
  match m with
  | [] => [(k, v)]
  | (k', v') :: rest =>
    if k' = k then (k, v) :: rest else (k', v') :: alistInsert rest k v

theorem alistGet_insert_self {α : Type} (m : List (String × α)) (k : String) (v : α) :
    alistGet (alistInsert m k v) k = some v := by
  induction m with
  | nil => simp [alistInsert, alistGet]
  | cons hd tl ih =>
    obtain ⟨k', v'⟩ := hd
    by_cases h : k' = k
    · simp [alistInsert, alistGet, h]
    · simp [alistInsert, alistGet, h, ih]

theorem alistGet_insert_ne {α : Type} (m : List (String × α)) (k k' : String) (v : α)
    (h : k ≠ k') : alistGet (alistInsert m k v) k' = alistGet m k' := by
  induction m with
  | nil => simp [alistInsert, alistGet, h]
  | cons hd tl ih =>
    obtain ⟨k0, v0⟩ := hd
    by_cases h0 : k0 = k
    · subst h0
      simp [alistInsert, alistGet, h]
    · simp [alistInsert, alistGet, h0, ih]

/-- Modelled from the spec: a table-read audit event (`ReadEvent` lives in the
external `bigquery_audit` module).  Fields per spec §3/§6: resource id, UTC
timestamp, actor, set of field names read, optional read reason, optional job
identifier.  `BigQueryTableRef` resources are modelled by their string form. -/
structure ReadEvent where
  resource : String
  timestamp : Int
  actor_email : String
  fieldsRead : List String
  readReason : Option String
  jobName : Option String
deriving DecidableEq, Repr

/-- Modelled from the spec: a completed-query audit event (`QueryEvent` lives
in the external `bigquery_audit` module).  Fields per spec §3/§6 that the
usage module reads: job identifier, query text, statement-type string,
timestamp, actor, optional destination resource. -/
structure QueryEvent where
  job_name : Option String
  query : String
  statementType : String
  timestamp : Int
  actor_email : String
  destinationTable : Option String
deriving DecidableEq, Repr

/-- Modelled from the spec: the tagged event wrapper (`AuditEvent` lives in
the external `bigquery_audit` module): an optional read part and an optional
query part. -/
structure AuditEvent where
  read_event : Option ReadEvent
  query_event : Option QueryEvent
deriving DecidableEq, Repr

/-- Modelled from the spec: operation-category constants
(`OperationTypeClass` lives in the external generated `schema_classes`
module); modelled by their wire strings. -/
def OperationTypeClass.INSERT : String := "INSERT"

def OperationTypeClass.UPDATE : String := "UPDATE"

def OperationTypeClass.DELETE : String := "DELETE"

def OperationTypeClass.CREATE : String := "CREATE"

def OperationTypeClass.DROP : String := "DROP"

def OperationTypeClass.ALTER : String := "ALTER"

def OperationTypeClass.CUSTOM : String := "CUSTOM"

/-- `OPERATION_STATEMENT_TYPES` (usage.py lines 63-85), entry for entry. -/
def OPERATION_STATEMENT_TYPES : List (String × String) :=
  [ ("INSERT", OperationTypeClass.INSERT),
    ("UPDATE", OperationTypeClass.UPDATE),
    ("DELETE", OperationTypeClass.DELETE),
    ("MERGE", OperationTypeClass.UPDATE),
    ("CREATE", OperationTypeClass.CREATE),
    ("CREATE_TABLE_AS_SELECT", OperationTypeClass.CREATE),
    ("CREATE_EXTERNAL_TABLE", OperationTypeClass.CREATE),
    ("CREATE_SNAPSHOT_TABLE", OperationTypeClass.CREATE),
    ("CREATE_VIEW", OperationTypeClass.CREATE),
    ("CREATE_MATERIALIZED_VIEW", OperationTypeClass.CREATE),
    ("CREATE_SCHEMA", OperationTypeClass.CREATE),
    ("DROP_TABLE", OperationTypeClass.DROP),
    ("DROP_EXTERNAL_TABLE", OperationTypeClass.DROP),
    ("DROP_SNAPSHOT_TABLE", OperationTypeClass.DROP),
    ("DROP_VIEW", OperationTypeClass.DROP),
    ("DROP_MATERIALIZED_VIEW", OperationTypeClass.DROP),
    ("DROP_SCHEMA", OperationTypeClass.DROP),
    ("ALTER_TABLE", OperationTypeClass.ALTER),
    ("ALTER_VIEW", OperationTypeClass.ALTER),
    ("ALTER_MATERIALIZED_VIEW", OperationTypeClass.ALTER),
    ("ALTER_SCHEMA", OperationTypeClass.ALTER) ]

/-- `READ_STATEMENT_TYPES` (usage.py line 87). -/
def READ_STATEMENT_TYPES : List String := ["SELECT"]

/-- `OperationalDataMeta` (usage.py lines 92-97). -/
structure OperationalDataMeta where
  statement_type : String
  last_updated_timestamp : Int
  actor_email : String
  custom_type : Option String
deriving DecidableEq, Repr

/-- `BigQueryUsageExtractor._get_destination_table` (usage.py lines 670-685),
branch for branch: the query destination is used only when no read part is
present; any read part makes the read's resource the destination. -/
def get_destination_table (event : AuditEvent) : Option String :=
  match event.read_event, event.query_event with
  | none, some qe =>
    match qe.destinationTable with
    | some dest => some dest
    | none => none
  | some re, _ => some re.resource
  | none, none => none

/-- `BigQueryUsageExtractor._extract_operational_meta` (usage.py lines
687-730), branch for branch.  Reporting side effects
(`operation_types_stat`) are not relevant to any claim and are omitted. -/
def extract_operational_meta (event : AuditEvent) : Option OperationalDataMeta :=
  match event.query_event, event.read_event with
  | none, some re =>
    some { statement_type := OperationTypeClass.CUSTOM,
           custom_type := some "CUSTOM_READ",
           last_updated_timestamp := re.timestamp,
           actor_email := re.actor_email }
  | some qe, rOpt =>
    match alistGet OPERATION_STATEMENT_TYPES qe.statementType, rOpt with
    | some w, none =>
      some { statement_type := w,
             custom_type := none,
             last_updated_timestamp := qe.timestamp,
             actor_email := qe.actor_email }
    | some _, some _ =>
      some { statement_type := OperationTypeClass.CUSTOM,
             custom_type := some qe.statementType,
             last_updated_timestamp := qe.timestamp,
             actor_email := qe.actor_email }
    | none, _ =>
      some { statement_type := OperationTypeClass.CUSTOM,
             custom_type := some qe.statementType,
             last_updated_timestamp := qe.timestamp,
             actor_email := qe.actor_email }
  | none, none => none

/-- Concrete read event used in counterexamples for the operational deriver. -/
def reC3 : ReadEvent :=
  { resource := "proj.ds.t1", timestamp := 100, actor_email := "a@x.com",
    fieldsRead := ["c1"], readReason := some "JOB", jobName := some "job1" }

/-- Concrete query event with a declared destination table. -/
def qeC3 : QueryEvent :=
  { job_name := some "job1", query := "SELECT c1 FROM t1",
    statementType := "SELECT", timestamp := 95, actor_email := "a@x.com",
    destinationTable := some "proj.ds.dest" }

/-- C3 counterexample: a correlated pair whose QueryEvent declares destination
"proj.ds.dest"; the code nevertheless picks the ReadEvent's resource
"proj.ds.t1", contradicting "the QueryEvent's declared destination table if
one is present". -/
theorem c3_destination_read_overrides_cex :
    (AuditEvent.mk (some reC3) (some qeC3)).query_event = some qeC3 ∧
    qeC3.destinationTable = some "proj.ds.dest" ∧
    get_destination_table (AuditEvent.mk (some reC3) (some qeC3)) =
      some "proj.ds.t1" ∧
    (some "proj.ds.t1" : Option String) ≠ some "proj.ds.dest" := by
  refine ⟨rfl, rfl, rfl, ?_⟩
  decide

/-- C3 amended: the destination resource is the ReadEvent's resource whenever
a ReadEvent is present (even if the QueryEvent declares a destination); the
QueryEvent's declared destination is used only when no ReadEvent is present. -/
theorem c3_destination_table_amended (event : AuditEvent) :
    (∀ re, event.read_event = some re →
      get_destination_table event = some re.resource) ∧
    (event.read_event = none →
      get_destination_table event = event.query_event.bind
        (fun qe => qe.destinationTable)) := by
  obtain ⟨rOpt, qOpt⟩ := event
  constructor
  · intro re hre
    cases rOpt with
    | none => cases hre
    | some r =>
      cases hre
      cases qOpt <;> rfl
  · intro hre
    cases rOpt with
    | some r => cases hre
    | none =>
      cases qOpt with
      | none => rfl
      | some qe =>
        cases h : qe.destinationTable <;>
          simp [get_destination_table, h]

/-- Witness for `c3_destination_table_amended` at a concrete pair. -/
theorem c3_destination_table_amended_witness :
    get_destination_table (AuditEvent.mk (some reC3) (some qeC3)) =
      some reC3.resource :=
  (c3_destination_table_amended (AuditEvent.mk (some reC3) (some qeC3))).1 reC3 rfl

/-- Concrete read event for the C4 scenario. -/
def reC4 : ReadEvent :=
  { resource := "proj.ds.t2", timestamp := 200, actor_email := "b@x.com",
    fieldsRead := [], readReason := none, jobName := some "job2" }

/-- Concrete INSERT query event for the C4 scenario. -/
def qeC4 : QueryEvent :=
  { job_name := some "job2", query := "INSERT INTO t2 VALUES (1)",
    statementType := "INSERT", timestamp := 205, actor_email := "b@x.com",
    destinationTable := none }

/-- C4 counterexample: a ReadEvent+INSERT pair is classified as
CUSTOM carrying the raw string "INSERT", which differs from the generic read
record the code produces for read-only events (CUSTOM with custom type
"CUSTOM_READ"); so the record is not insert-classified, but it is not the
generic read-category record either. -/
theorem c4_read_insert_pair_custom_cex :
    extract_operational_meta (AuditEvent.mk (some reC4) (some qeC4)) =
      some { statement_type := OperationTypeClass.CUSTOM,
             custom_type := some "INSERT",
             last_updated_timestamp := qeC4.timestamp,
             actor_email := qeC4.actor_email } ∧
    extract_operational_meta (AuditEvent.mk (some reC4) none) =
      some { statement_type := OperationTypeClass.CUSTOM,
             custom_type := some "CUSTOM_READ",
             last_updated_timestamp := reC4.timestamp,
             actor_email := reC4.actor_email } ∧
    (some "INSERT" : Option String) ≠ some "CUSTOM_READ" := by
  refine ⟨by decide, by decide, by decide⟩

/-- C4 amended: a correlated pair with both a ReadEvent and a QueryEvent of
statement type "INSERT" yields an operation record with category CUSTOM
carrying the raw statement-type string "INSERT" — not an insert-classified
record (CUSTOM differs from the INSERT category). -/
theorem c4_read_insert_pair_amended (event : AuditEvent) (re : ReadEvent)
    (qe : QueryEvent) (hre : event.read_event = some re)
    (hqe : event.query_event = some qe) (hst : qe.statementType = "INSERT") :
    extract_operational_meta event =
      some { statement_type := OperationTypeClass.CUSTOM,
             custom_type := some "INSERT",
             last_updated_timestamp := qe.timestamp,
             actor_email := qe.actor_email } ∧
    OperationTypeClass.CUSTOM ≠ OperationTypeClass.INSERT := by
  obtain ⟨rOpt, qOpt⟩ := event
  simp only at hre hqe
  subst hre
  subst hqe
  refine ⟨?_, by decide⟩
  simp [extract_operational_meta, hst, alistGet, OPERATION_STATEMENT_TYPES]

/-- Witness for `c4_read_insert_pair_amended` at the concrete pair. -/
theorem c4_read_insert_pair_amended_witness :
    extract_operational_meta (AuditEvent.mk (some reC4) (some qeC4)) =
      some { statement_type := OperationTypeClass.CUSTOM,
             custom_type := some "INSERT",
             last_updated_timestamp := qeC4.timestamp,
             actor_email := qeC4.actor_email } :=
  (c4_read_insert_pair_amended (AuditEvent.mk (some reC4) (some qeC4))
    reC4 qeC4 rfl rfl rfl).1

/-- C5: for a QueryEvent whose statement type maps to a known write category,
the write category is assigned exactly when no ReadEvent accompanies it;
an accompanying ReadEvent suppresses the write classification and the pair is
classified CUSTOM carrying the raw statement-type string. -/
theorem c5_read_suppresses_write_classification (event : AuditEvent)
    (qe : QueryEvent) (w : String) (hqe : event.query_event = some qe)
    (hw : alistGet OPERATION_STATEMENT_TYPES qe.statementType = some w) :
    (event.read_event = none →
      extract_operational_meta event =
        some { statement_type := w,
               custom_type := none,
               last_updated_timestamp := qe.timestamp,
               actor_email := qe.actor_email }) ∧
    (∀ re, event.read_event = some re →
      extract_operational_meta event =
        some { statement_type := OperationTypeClass.CUSTOM,
               custom_type := some qe.statementType,
               last_updated_timestamp := qe.timestamp,
               actor_email := qe.actor_email }) := by
  obtain ⟨rOpt, qOpt⟩ := event
  simp only at hqe
  subst hqe
  constructor
  · intro hre
    simp only at hre
    subst hre
    simp [extract_operational_meta, hw]
  · intro re hre
    simp only at hre
    subst hre
    simp [extract_operational_meta, hw]

/-- Witness for `c5_read_suppresses_write_classification`: the concrete
INSERT query event alone is insert-classified. -/
theorem c5_read_suppresses_write_classification_witness :
    extract_operational_meta (AuditEvent.mk none (some qeC4)) =
      some { statement_type := OperationTypeClass.INSERT,
             custom_type := none,
             last_updated_timestamp := qeC4.timestamp,
             actor_email := qeC4.actor_email } :=
  (c5_read_suppresses_write_classification (AuditEvent.mk none (some qeC4))
    qeC4 OperationTypeClass.INSERT rfl (by decide)).1 rfl

/-- Run configuration (spec §6 "Recognized configuration").  `bucketOf` and
`isTempTable` stand for the external collaborators `get_time_bucket` and
`BigQueryTableRef.is_temporary_table`; `max_query_length` is the
`MAX_QUERY_LENGTH` budget (imported constant `TOTAL_BUDGET_FOR_QUERY_LIST`),
modelled from the spec as the configured maximum query-text length. -/
structure Config where
  start_time : Int
  end_time : Int
  max_query_length : Nat
  bucketOf : Int → String
  isTempTable : String → Bool

/-- The four persisted mappings of `BigQueryUsageState` (usage.py lines
164-211): read events keyed by fresh surrogate, query events keyed by job
name, column accesses keyed by fresh surrogate, query texts keyed by content
hash. -/
structure UsageState where
  read_events : List (String × ReadEvent)
  query_events : List (String × QueryEvent)
  column_accesses : List (String × (String × String))
  queries : List (String × String)
deriving DecidableEq, Repr

/-- Mutable extractor state during ingestion: the usage store, the in-memory
collision surrogate map `uuid_to_query` (usage.py line 352), the relevant
report counters, and the counter modelling `uuid.uuid4()` freshness. -/
structure ExtState where
  usage : UsageState
  uuid_to_query : List (String × String)
  uuidCounter : Nat
  num_usage_resources_dropped : Nat
  num_usage_query_hash_collisions : Nat
  dropped : List String
deriving DecidableEq, Repr

/-- Fresh surrogate key: models `str(uuid.uuid4())` — content-independent and
distinct for each minting. -/
def mintUuid (n : Nat) : String := "uuid-" ++ toString n

/-- Store one `ColumnAccess` row per field read (usage.py lines 515-516). -/
def store_column_accesses (key : String) (fields : List String)
    (st : ExtState) : ExtState :=
  fields.foldl
    (fun s f =>
      { s with
        usage := { s.usage with
          column_accesses :=
            alistInsert s.usage.column_accesses (mintUuid s.uuidCounter) (key, f) },
        uuidCounter := s.uuidCounter + 1 })
    st

/-- The in-window read branch of `_store_usage_event` (usage.py lines
498-517): unknown resources and temporary tables are dropped (counted); a
kept read is stored under a fresh surrogate key together with one column
access per field. -/
def store_read_branch (cfg : Config) (tableRefs : List String)
    (re : ReadEvent) (st : ExtState) : Bool × ExtState :=
  if re.resource ∉ tableRefs then
    (false,
      { st with
        num_usage_resources_dropped := st.num_usage_resources_dropped + 1,
        dropped := st.dropped ++ [re.resource] })
  else if cfg.isTempTable re.resource then
    (false, { st with dropped := st.dropped ++ [re.resource] })
  else
    let key := mintUuid st.uuidCounter
    let st1 :=
      { st with
        usage := { st.usage with
          read_events := alistInsert st.usage.read_events key re },
        uuidCounter := st.uuidCounter + 1 }
    (true, store_column_accesses key re.fieldsRead st1)

/-- The query branch of `_store_usage_event` (usage.py lines 518-530):
truncate to `max_query_length`, hash, dedup by content with collision
surrogates, then upsert the query event by job name with its `query` field
replaced by the reference. -/
def store_query_branch (md5f : String → String) (cfg : Config)
    (event : AuditEvent) (st : ExtState) : Bool × ExtState :=
  match event.query_event with
  | none => (false, st)
  | some qe =>
    match qe.job_name with
    | none => (false, st)
    | some j =>
      if j = "" then (false, st)
      else
        let q := qe.query.take cfg.max_query_length
        let query_hash := md5f q
        if ((alistGet st.usage.queries query_hash).getD q) ≠ q then
          let key := mintUuid st.uuidCounter
          (true,
            { st with
              uuid_to_query := alistInsert st.uuid_to_query key q,
              uuidCounter := st.uuidCounter + 1,
              num_usage_query_hash_collisions :=
                st.num_usage_query_hash_collisions + 1,
              usage := { st.usage with
                query_events :=
                  alistInsert st.usage.query_events j { qe with query := key } } })
        else
          (true,
            { st with
              usage := { st.usage with
                queries := alistInsert st.usage.queries query_hash q,
                query_events :=
                  alistInsert st.usage.query_events j
                    { qe with query := query_hash } } })

/-- `BigQueryUsageExtractor._store_usage_event` (usage.py lines 491-531),
branch for branch: a read event inside the `[start_time, end_time)` window
takes the read branch; otherwise (read absent, or read outside the window)
control falls through to the query branch, exactly as the Python
`if ... elif ...` does; any other shape returns `False`. -/
def store_usage_event (md5f : String → String) (cfg : Config)
    (tableRefs : List String) (event : AuditEvent) (st : ExtState) :
    Bool × ExtState :=
  match event.read_event with
  | some re =>
    if cfg.start_time ≤ re.timestamp ∧ re.timestamp < cfg.end_time then
      store_read_branch cfg tableRefs re st
    else
      store_query_branch md5f cfg event st
  | none => store_query_branch md5f cfg event st

/-- C10: a ReadEvent-shaped audit event whose timestamp lies outside the
configured `[start_time, end_time)` window is ignored: `_store_usage_event`
returns `False` and leaves the entire state — stores, the resource-drop
counter, the collision counter, the dropped list — unchanged. -/
theorem c10_out_of_window_read_ignored (md5f : String → String) (cfg : Config)
    (tableRefs : List String) (event : AuditEvent) (re : ReadEvent)
    (st : ExtState) (hre : event.read_event = some re)
    (hqe : event.query_event = none)
    (hw : ¬ (cfg.start_time ≤ re.timestamp ∧ re.timestamp < cfg.end_time)) :
    store_usage_event md5f cfg tableRefs event st = (false, st) := by
  obtain ⟨rOpt, qOpt⟩ := event
  simp only at hre hqe
  subst hre
  subst hqe
  simp [store_usage_event, hw, store_query_branch]

/-- Concrete configuration for witnesses: window `[0, 1000)`, query budget 4,
constant bucket, no temporary tables. -/
def cfgW : Config :=
  { start_time := 0, end_time := 1000, max_query_length := 4,
    bucketOf := fun _ => "B", isTempTable := fun _ => false }

/-- Empty extractor state. -/
def emptyExt : ExtState :=
  { usage := { read_events := [], query_events := [],
               column_accesses := [], queries := [] },
    uuid_to_query := [], uuidCounter := 0,
    num_usage_resources_dropped := 0,
    num_usage_query_hash_collisions := 0, dropped := [] }

/-- A read event at timestamp 2000, outside the `[0, 1000)` window. -/
def reLate : ReadEvent :=
  { resource := "proj.ds.t1", timestamp := 2000, actor_email := "a@x.com",
    fieldsRead := ["c1"], readReason := none, jobName := some "job1" }

/-- Witness for `c10_out_of_window_read_ignored` at a concrete late read. -/
theorem c10_out_of_window_read_ignored_witness :
    store_usage_event (fun s => s) cfgW ["proj.ds.t1"]
      (AuditEvent.mk (some reLate) none) emptyExt = (false, emptyExt) :=
  c10_out_of_window_read_ignored (fun s => s) cfgW ["proj.ds.t1"]
    (AuditEvent.mk (some reLate) none) reLate emptyExt rfl rfl (by decide)

/-- C9: two query events whose texts agree on the first `max_query_length`
characters (though the full texts differ) are truncated before hashing, hence
reference the same hash entry holding the shared truncated text: no collision
is detected, the collision counter and the surrogate map are untouched, and
both stored events reference the common hash key. -/
theorem c9_truncation_dedup (md5f : String → String) (cfg : Config)
    (tableRefs : List String) (e1 e2 : QueryEvent) (j1 j2 : String)
    (st : ExtState)
    (h1 : e1.job_name = some j1) (hj1 : j1 ≠ "")
    (h2 : e2.job_name = some j2) (hj2 : j2 ≠ "")
    (hjj : j1 ≠ j2)
    (hdiff : e1.query ≠ e2.query)
    (hpre : e1.query.take cfg.max_query_length =
            e2.query.take cfg.max_query_length)
    (habs : alistGet st.usage.queries
        (md5f (e1.query.take cfg.max_query_length)) = none) :
    (store_usage_event md5f cfg tableRefs (AuditEvent.mk none (some e1)) st).1
        = true ∧
    (store_usage_event md5f cfg tableRefs (AuditEvent.mk none (some e2))
        (store_usage_event md5f cfg tableRefs (AuditEvent.mk none (some e1)) st).2).1
        = true ∧
    alistGet (store_usage_event md5f cfg tableRefs (AuditEvent.mk none (some e2))
        (store_usage_event md5f cfg tableRefs (AuditEvent.mk none (some e1)) st).2).2.usage.queries
        (md5f (e1.query.take cfg.max_query_length))
        = some (e1.query.take cfg.max_query_length) ∧
    alistGet (store_usage_event md5f cfg tableRefs (AuditEvent.mk none (some e2))
        (store_usage_event md5f cfg tableRefs (AuditEvent.mk none (some e1)) st).2).2.usage.query_events
        j1 = some { e1 with query := md5f (e1.query.take cfg.max_query_length) } ∧
    alistGet (store_usage_event md5f cfg tableRefs (AuditEvent.mk none (some e2))
        (store_usage_event md5f cfg tableRefs (AuditEvent.mk none (some e1)) st).2).2.usage.query_events
        j2 = some { e2 with query := md5f (e1.query.take cfg.max_query_length) } ∧
    (store_usage_event md5f cfg tableRefs (AuditEvent.mk none (some e2))
        (store_usage_event md5f cfg tableRefs (AuditEvent.mk none (some e1)) st).2).2.num_usage_query_hash_collisions
        = st.num_usage_query_hash_collisions ∧
    (store_usage_event md5f cfg tableRefs (AuditEvent.mk none (some e2))
        (store_usage_event md5f cfg tableRefs (AuditEvent.mk none (some e1)) st).2).2.uuid_to_query
        = st.uuid_to_query := by
  have hstep1 : store_usage_event md5f cfg tableRefs (AuditEvent.mk none (some e1)) st =
      (true,
        { st with usage := { st.usage with
            queries := alistInsert st.usage.queries
              (md5f (e1.query.take cfg.max_query_length))
              (e1.query.take cfg.max_query_length),
            query_events := alistInsert st.usage.query_events j1
              { e1 with query := md5f (e1.query.take cfg.max_query_length) } } }) := by
    simp only [store_usage_event, store_query_branch, h1, habs, Option.getD_none,
      ne_eq, not_true_eq_false, if_false, if_neg hj1]
  rw [hstep1]
  have hstep2 : store_usage_event md5f cfg tableRefs (AuditEvent.mk none (some e2))
      ({ st with usage := { st.usage with
          queries := alistInsert st.usage.queries
            (md5f (e1.query.take cfg.max_query_length))
            (e1.query.take cfg.max_query_length),
          query_events := alistInsert st.usage.query_events j1
            { e1 with query := md5f (e1.query.take cfg.max_query_length) } } }) =
      (true,
        { st with usage := { st.usage with
            queries := alistInsert (alistInsert st.usage.queries
              (md5f (e1.query.take cfg.max_query_length))
              (e1.query.take cfg.max_query_length))
              (md5f (e2.query.take cfg.max_query_length))
              (e2.query.take cfg.max_query_length),
            query_events := alistInsert (alistInsert st.usage.query_events j1
              { e1 with query := md5f (e1.query.take cfg.max_query_length) }) j2
              { e2 with query := md5f (e2.query.take cfg.max_query_length) } } }) := by
    simp only [store_usage_event, store_query_branch, h2, ← hpre, ne_eq,
      if_neg hj2]
    rw [alistGet_insert_self]
    simp
  rw [hstep2]
  refine ⟨rfl, rfl, ?_, ?_, ?_, rfl, rfl⟩
  · rw [← hpre, alistGet_insert_self]
  · rw [alistGet_insert_ne _ _ _ _ (Ne.symm hjj), alistGet_insert_self]
  · rw [← hpre, alistGet_insert_self]

/-- Stand-in digest used for concrete runs where no collision is wanted. -/
def md5C9 : String → String := fun s => "h-" ++ s

/-- First query event for the C9 witness: text "abcdX", budget 4. -/
def qe1C9 : QueryEvent :=
  { job_name := some "ja", query := "abcdX", statementType := "SELECT",
    timestamp := 10, actor_email := "a@x.com", destinationTable := none }

/-- Second query event for the C9 witness: text "abcdY", same 4-char head. -/
def qe2C9 : QueryEvent :=
  { job_name := some "jb", query := "abcdY", statementType := "SELECT",
    timestamp := 11, actor_email := "a@x.com", destinationTable := none }

/-- Witness for `c9_truncation_dedup`: the two distinct texts share their
4-character head, are stored under one hash entry, and the collision counter
stays at zero. -/
theorem c9_truncation_dedup_witness :
    qe1C9.query ≠ qe2C9.query ∧
    alistGet (store_usage_event md5C9 cfgW ["proj.ds.t1"]
        (AuditEvent.mk none (some qe2C9))
        (store_usage_event md5C9 cfgW ["proj.ds.t1"]
          (AuditEvent.mk none (some qe1C9)) emptyExt).2).2.usage.queries
        (md5C9 (qe1C9.query.take cfgW.max_query_length))
      = some (qe1C9.query.take cfgW.max_query_length) ∧
    (store_usage_event md5C9 cfgW ["proj.ds.t1"]
        (AuditEvent.mk none (some qe2C9))
        (store_usage_event md5C9 cfgW ["proj.ds.t1"]
          (AuditEvent.mk none (some qe1C9)) emptyExt).2).2.num_usage_query_hash_collisions
      = emptyExt.num_usage_query_hash_collisions :=
  ⟨by decide,
   (c9_truncation_dedup md5C9 cfgW ["proj.ds.t1"] qe1C9 qe2C9 "ja" "jb"
      emptyExt rfl (by decide) rfl (by decide) (by decide) (by decide)
      (by decide) rfl).2.2.1,
   (c9_truncation_dedup md5C9 cfgW ["proj.ds.t1"] qe1C9 qe2C9 "ja" "jb"
      emptyExt rfl (by decide) rfl (by decide) (by decide) (by decide)
      (by decide) rfl).2.2.2.2.2.1⟩

/-- One row of `BigQueryUsageState.UsageStatistic` (usage.py lines 302-309);
`query_freq` holds (query-reference, count) pairs. -/
structure UsageStatistic where
  timestamp : String
  resource : String
  query_count : Nat
  query_freq : List (String × Nat)
  user_freq : List (String × Nat)
  column_freq : List (String × Nat)
deriving DecidableEq, Repr

/-- Modelled from the spec: the emitted usage record (`make_usage_workunit`
lives in the external `usage_common` module); per spec §6 it carries the
bucket, resource, query count and the three frequency lists, with
`query_freq` already resolved to literal query text. -/
structure UsageWorkunit where
  timestamp : String
  resource : String
  query_count : Nat
  query_freq : List (String × Nat)
  user_freq : List (String × Nat)
  column_freq : List (String × Nat)
deriving DecidableEq, Repr

/-- Per-entry query-reference resolution performed by
`_generate_usage_workunits` (usage.py lines 437-445):
`self.uuid_to_query.get(query_hash, usage_state.queries[query_hash])`.
Python evaluates the default argument eagerly, so `queries[ref]` is looked up
first and a reference absent from the `queries` table raises `KeyError`
regardless of the surrogate map; only then does the surrogate map override
the default.  The error value carries the offending reference. -/
def resolve_query_freq (uuid_to_query queries : List (String × String)) :
    List (String × Nat) → Except String (List (String × Nat))
  | [] => Except.ok []
  | (ref, c) :: rest =>
    match alistGet queries ref with
    | none => Except.error ref
    | some t =>
      match resolve_query_freq uuid_to_query queries rest with
      | Except.error m => Except.error m
      | Except.ok rs => Except.ok (((alistGet uuid_to_query ref).getD t, c) :: rs)

/-- Building the emitted record from a statistics row and its resolved
query frequencies (usage.py lines 446-459). -/
def mk_usage_workunit (entry : UsageStatistic) (qf : List (String × Nat)) :
    UsageWorkunit :=
  { timestamp := entry.timestamp, resource := entry.resource,
    query_count := entry.query_count, query_freq := qf,
    user_freq := entry.user_freq, column_freq := entry.column_freq }

/-- The loop of `BigQueryUsageExtractor._generate_usage_workunits` (usage.py
lines 426-466): each entry is processed inside `try/except` — on success the
workunit is emitted, on any exception the entry is skipped and the
"statistics-workunit" error counter is incremented, and the loop continues
with the next entry. -/
def generate_usage_workunits_aux (uuid_to_query queries : List (String × String)) :
    List UsageStatistic → List UsageWorkunit × Nat → List UsageWorkunit × Nat
  | [], acc => acc
  | entry :: rest, (outs, errs) =>
    match resolve_query_freq uuid_to_query queries entry.query_freq with
    | Except.ok qf =>
      generate_usage_workunits_aux uuid_to_query queries rest
        (outs ++ [mk_usage_workunit entry qf], errs)
    | Except.error _ =>
      generate_usage_workunits_aux uuid_to_query queries rest (outs, errs + 1)

/-- `_generate_usage_workunits` over a list of statistics rows: emitted
workunits and the final "statistics-workunit" error count. -/
def generate_usage_workunits (uuid_to_query queries : List (String × String))
    (entries : List UsageStatistic) : List UsageWorkunit × Nat :=
  generate_usage_workunits_aux uuid_to_query queries entries ([], 0)

/-- A resolution attempt fails exactly when some reference in the list is
absent from the `queries` table. -/
theorem resolve_query_freq_error_of_missing (uuid_to_query queries :
    List (String × String)) (qf : List (String × Nat))
    (h : ∃ p ∈ qf, alistGet queries p.1 = none) :
    ∃ m, resolve_query_freq uuid_to_query queries qf = Except.error m := by
  induction qf with
  | nil => simp at h
  | cons hd tl ih =>
    obtain ⟨ref, c⟩ := hd
    rcases h with ⟨p, hp, hnone⟩
    rcases List.mem_cons.mp hp with hp | hp
    · subst hp
      simp only at hnone
      exact ⟨ref, by simp [resolve_query_freq, hnone]⟩
    · cases hget : alistGet queries ref with
      | none => exact ⟨ref, by simp [resolve_query_freq, hget]⟩
      | some t =>
        rcases ih ⟨p, hp, hnone⟩ with ⟨m, hm⟩
        exact ⟨m, by simp [resolve_query_freq, hget, hm]⟩

/-- Statistics row whose single query reference is absent from every table. -/
def entryBadC2 : UsageStatistic :=
  { timestamp := "2023-01-01T10:00:00", resource := "proj.ds.t1",
    query_count := 1, query_freq := [("missing-ref", 1)],
    user_freq := [("a@x.com", 1)], column_freq := [] }

/-- Statistics row whose query reference resolves via the QueryText table. -/
def entryGoodC2 : UsageStatistic :=
  { timestamp := "2023-01-01T11:00:00", resource := "proj.ds.t1",
    query_count := 1, query_freq := [("h1", 1)],
    user_freq := [("a@x.com", 1)], column_freq := [] }

/-- C2 counterexample: with QueryText table `[("h1", "text1")]`, a run over
a failing entry followed by a good one emits the good entry's record and
counts one "statistics-workunit" error — the unresolvable reference is
absorbed locally and the loop continues past it, instead of aborting the run
and propagating to the top-level caller. -/
theorem c2_resolution_failure_absorbed_cex :
    generate_usage_workunits [] [("h1", "text1")] [entryBadC2, entryGoodC2] =
      ([mk_usage_workunit entryGoodC2 [("text1", 1)]], 1) := by
  decide

/-- C2 amended: during usage-record emission each query reference is resolved
through the QueryText table (with the collision surrogate map overriding the
result); an entry holding a reference absent from the QueryText table raises
`KeyError`, which the per-entry handler absorbs: that entry is skipped, the
"statistics-workunit" error counter is incremented, and emission continues
with the remaining entries — nothing propagates to the caller. -/
theorem c2_missing_reference_skips_record (uuid_to_query queries :
    List (String × String)) (entry : UsageStatistic)
    (rest : List UsageStatistic) (outs : List UsageWorkunit) (errs : Nat)
    (h : ∃ p ∈ entry.query_freq, alistGet queries p.1 = none) :
    generate_usage_workunits_aux uuid_to_query queries (entry :: rest)
        (outs, errs) =
      generate_usage_workunits_aux uuid_to_query queries rest
        (outs, errs + 1) := by
  rcases resolve_query_freq_error_of_missing uuid_to_query queries
    entry.query_freq h with ⟨m, hm⟩
  simp [generate_usage_workunits_aux, hm]

/-- Witness for `c2_missing_reference_skips_record` at the concrete failing
entry. -/
theorem c2_missing_reference_skips_record_witness :
    generate_usage_workunits_aux [] [("h1", "text1")]
        [entryBadC2, entryGoodC2] ([], 0) =
      generate_usage_workunits_aux [] [("h1", "text1")] [entryGoodC2] ([], 1) :=
  c2_missing_reference_skips_record [] [("h1", "text1")] entryBadC2
    [entryGoodC2] [] 0 ⟨("missing-ref", 1), by decide, by decide⟩

/-- Stand-in digest with a collision: every text hashes to "cafe". -/
def md5C6 : String → String := fun _ => "cafe"

/-- Configuration whose query budget does not truncate the C6 texts. -/
def cfgC6 : Config :=
  { start_time := 0, end_time := 1000, max_query_length := 100,
    bucketOf := fun _ => "B", isTempTable := fun _ => false }

/-- First colliding query event. -/
def qe1C6 : QueryEvent :=
  { job_name := some "j1", query := "select 1", statementType := "SELECT",
    timestamp := 10, actor_email := "a@x.com", destinationTable := none }

/-- Second colliding query event: different text, same digest. -/
def qe2C6 : QueryEvent :=
  { job_name := some "j2", query := "select 2", statementType := "SELECT",
    timestamp := 11, actor_email := "a@x.com", destinationTable := none }

/-- State after storing the two colliding query events. -/
def stC6 : ExtState :=
  (store_usage_event md5C6 cfgC6 [] (AuditEvent.mk none (some qe2C6))
    (store_usage_event md5C6 cfgC6 [] (AuditEvent.mk none (some qe1C6))
      emptyExt).2).2

/-- Statistics row referencing the collision surrogate key. -/
def entryC6 : UsageStatistic :=
  { timestamp := "B", resource := "res", query_count := 1,
    query_freq := [("uuid-0", 1)], user_freq := [], column_freq := [] }

set_option maxRecDepth 8000 in
/-- C6: storing a colliding query text mints the fresh surrogate "uuid-0",
stores the new text in the surrogate map, references the event by the
surrogate, increments the collision counter, and leaves the original hash
entry untouched — but during emission the surrogate does NOT resolve to its
text: `uuid_to_query.get(ref, queries[ref])` evaluates the default
`queries[ref]` eagerly and the surrogate is absent from the QueryText table,
so resolution raises `KeyError` and the whole record is skipped (counted),
contradicting "each resolves to the text of its originating QueryEvent
during emission". -/
theorem c6_collision_surrogate_resolution_bug :
    stC6.usage.queries = [("cafe", "select 1")] ∧
    stC6.uuid_to_query = [("uuid-0", "select 2")] ∧
    stC6.num_usage_query_hash_collisions = 1 ∧
    alistGet stC6.usage.query_events "j1" = some { qe1C6 with query := "cafe" } ∧
    alistGet stC6.usage.query_events "j2" = some { qe2C6 with query := "uuid-0" } ∧
    alistGet stC6.uuid_to_query "uuid-0" = some "select 2" ∧
    resolve_query_freq stC6.uuid_to_query stC6.usage.queries [("uuid-0", 1)] =
      Except.error "uuid-0" ∧
    generate_usage_workunits stC6.uuid_to_query stC6.usage.queries [entryC6] =
      ([], 1) :=
  ⟨rfl, rfl, rfl, rfl, rfl, rfl, rfl, rfl⟩

/-- First-occurrence deduplication, modelling SQL `GROUP BY` key formation. -/
def listDistinct {α : Type} [DecidableEq α] (l : List α) : List α :=
  l.foldl (fun acc x => if x ∈ acc then acc else acc ++ [x]) []

/-- Executable lexicographic comparison on character lists, code point by
code point: SQLite's ordering of text values. -/
def charListLtB : List Char → List Char → Bool
  | [], [] => false
  | [], _ :: _ => true
  | _ :: _, [] => false
  | c1 :: r1, c2 :: r2 =>
    if c1.toNat < c2.toNat then true
    else if c1.toNat = c2.toNat then charListLtB r1 r2
    else false

/-- Executable strict lexicographic order on strings. -/
def strLtB (a b : String) : Bool := charListLtB a.data b.data

/-- The joined rows of the query-frequency subquery of
`BigQueryUsageState.usage_statistics_query` (usage.py lines 255-267):
`read_events r INNER JOIN query_events q ON r.name = q.key`, projected to the
selected columns (`r.timestamp` bucket, `r.resource`, `q.query`).  A read
with no job name has a NULL `name` column and joins nothing. -/
def usage_query_rows (cfg : Config) (st : UsageState) :
    List (String × String × String) :=
  st.read_events.filterMap (fun kr =>
    match kr.2.jobName with
    | none => none
    | some j =>
      match alistGet st.query_events j with
      | none => none
      | some q => some (cfg.bucketOf kr.2.timestamp, kr.2.resource, q.query))

/-- `GROUP BY r.timestamp, r.resource, q.query` with
`COUNT(r.key) as query_count`: one row per distinct key, with its count. -/
def usage_query_groups (cfg : Config) (st : UsageState) :
    List ((String × String × String) × Nat) :=
  (listDistinct (usage_query_rows cfg st)).map
    (fun k => (k, (usage_query_rows cfg st).count k))

/-- Strict "comes before" in the window order
`ORDER BY COUNT(r.key) DESC, q.query` of the `ROW_NUMBER` clause. -/
def window_preceding (g2 g : (String × String × String) × Nat) : Bool :=
  if g.2 < g2.2 then true
  else if g2.2 = g.2 then strLtB g2.1.2.2 g.1.2.2
  else false

/-- `ROW_NUMBER() over (PARTITION BY r.timestamp, r.resource, q.query ORDER
BY COUNT(r.key) DESC, q.query)` (usage.py line 261): within the partition of
rows sharing the FULL key `(timestamp, resource, query)`, one plus the number
of rows preceding the given row in the window order. -/
def row_number_rank (groups : List ((String × String × String) × Nat))
    (g : (String × String × String) × Nat) : Nat :=
  1 + (groups.filter
    (fun g2 => decide (g2.1 = g.1) && window_preceding g2 g)).length

/-- Insertion step for a stable insertion sort. -/
def insertSorted {α : Type} (le : α → α → Bool) (x : α) : List α → List α
  | [] => [x]
  | y :: ys => if le x y then x :: y :: ys else y :: insertSorted le x ys

/-- Stable insertion sort by a Boolean "at most" relation. -/
def sortByBool {α : Type} (le : α → α → Bool) (l : List α) : List α :=
  l.foldr (insertSorted le) []

/-- Non-strict comparison realising `ORDER BY query_count DESC, q.query`. -/
def freq_le (a b : String × Nat) : Bool :=
  if b.2 < a.2 then true
  else if a.2 = b.2 then strLtB a.1 b.1 || decide (a.1 = b.1)
  else false

/-- The `query_freq` list produced for one `(timestamp, resource)` group by
the `b` branch of `usage_statistics_query(top_n)` (usage.py lines 254-269):
keep the grouped rows whose `rank <= top_n`, restrict to the group, and
aggregate them in the subquery order `query_count DESC, q.query`. -/
def usage_query_freq (cfg : Config) (st : UsageState) (top_n : Nat)
    (t res : String) : List (String × Nat) :=
  let gs := usage_query_groups cfg st
  let kept := gs.filter (fun g =>
    decide (row_number_rank gs g ≤ top_n) && decide (g.1.1 = t) &&
      decide (g.1.2.1 = res))
  sortByBool freq_le (kept.map (fun g => (g.1.2.2, g.2)))

/-- A stored read row for the C1 scenario: resource "res", bucket "B". -/
def mkReadC1 (k : String) (j : String) : String × ReadEvent :=
  (k, { resource := "res", timestamp := 0, actor_email := "u@x.com",
        fieldsRead := [], readReason := none, jobName := some j })

/-- A stored query row for the C1 scenario: the `query` field holds the
query reference. -/
def mkQueryC1 (j : String) (ref : String) : String × QueryEvent :=
  (j, { job_name := some j, query := ref, statementType := "SELECT",
        timestamp := 0, actor_email := "u@x.com", destinationTable := none })

/-- Usage state with three distinct query references in one
`(bucket, resource)` group, with join counts 5, 5 and 3. -/
def stC1 : UsageState :=
  { read_events :=
      [ mkReadC1 "r01" "j1", mkReadC1 "r02" "j1", mkReadC1 "r03" "j1",
        mkReadC1 "r04" "j1", mkReadC1 "r05" "j1",
        mkReadC1 "r06" "j2", mkReadC1 "r07" "j2", mkReadC1 "r08" "j2",
        mkReadC1 "r09" "j2", mkReadC1 "r10" "j2",
        mkReadC1 "r11" "j3", mkReadC1 "r12" "j3", mkReadC1 "r13" "j3" ],
    query_events :=
      [ mkQueryC1 "j1" "qa", mkQueryC1 "j2" "qb", mkQueryC1 "j3" "qc" ],
    column_accesses := [], queries := [] }

/-- C1: with top-N = 2 and three query references of counts {5, 5, 3} in one
`(bucket, resource)` group, the query considered keeps ALL THREE entries, not
two: the `ROW_NUMBER` window partitions by `(timestamp, resource, query)` —
the very grouping key — so every partition is a singleton, every row gets
rank 1, and the `rank <= top_n` filter never removes anything for
`top_n >= 1`. -/
theorem c1_topn_filter_ineffective :
    usage_query_freq cfgW stC1 2 "B" "res" =
      [("qa", 5), ("qb", 5), ("qc", 3)] ∧
    ¬ (usage_query_freq cfgW stC1 2 "B" "res").length ≤ 2 := by
  refine ⟨by decide, ?_⟩
  intro h
  simp only [show usage_query_freq cfgW stC1 2 "B" "res" =
    [("qa", 5), ("qb", 5), ("qc", 3)] from by decide] at h
  simp at h

/-- `BigQueryUsageState.standalone_events` (usage.py lines 226-239): first
every read row LEFT JOINed to the query row whose key equals the read's job
name (`r.name = q.key`; a read without a job name joins nothing), then every
query row satisfying `NOT is_read`, i.e. whose statement type is not in
`READ_STATEMENT_TYPES`, emitted query-only — whether or not a read matched
it. -/
def standalone_events (st : UsageState) : List AuditEvent :=
  st.read_events.map (fun kr =>
    AuditEvent.mk (some kr.2)
      (kr.2.jobName.bind (fun j => alistGet st.query_events j))) ++
  (st.query_events.filter (fun kq =>
    decide (kq.2.statementType ∉ READ_STATEMENT_TYPES))).map
    (fun kq => AuditEvent.mk none (some kq.2))

/-- Stored read for the C7 scenario, matched to job "j1". -/
def rC7 : ReadEvent :=
  { resource := "res", timestamp := 0, actor_email := "u@x.com",
    fieldsRead := [], readReason := none, jobName := some "j1" }

/-- Stored non-SELECT query for the C7 scenario, keyed by job "j1". -/
def qC7 : QueryEvent :=
  { job_name := some "j1", query := "INSERT INTO t VALUES (1)",
    statementType := "INSERT", timestamp := 1, actor_email := "u@x.com",
    destinationTable := none }

/-- Store holding one read matched (by job "j1") to one INSERT query. -/
def stC7 : UsageState :=
  { read_events := [("k1", rC7)], query_events := [("j1", qC7)],
    column_accesses := [], queries := [] }

/-- C7 counterexample: the INSERT query event has a matching ReadEvent
(the read's job name "j1" finds it), yet the stream contains it TWICE — once
paired with the read and once standalone — contradicting "every stored
QueryEvent that has no matching ReadEvent — each such event appearing
exactly once". -/
theorem c7_matched_query_duplicated_cex :
    standalone_events stC7 =
      [AuditEvent.mk (some rC7) (some qC7), AuditEvent.mk none (some qC7)] ∧
    rC7.jobName = some "j1" ∧
    alistGet stC7.query_events "j1" = some qC7 :=
  ⟨rfl, rfl, rfl⟩

/-- C7 amended: the stream consists of every stored ReadEvent paired with the
QueryEvent matching its job identifier if any, plus every stored QueryEvent
whose statement type is not a read statement (not "SELECT") as a standalone
query-only event — the latter regardless of whether a ReadEvent matches it
(so a matched non-SELECT QueryEvent also appears standalone, and an
unmatched SELECT QueryEvent does not appear standalone). -/
theorem c7_standalone_events_amended (st : UsageState) :
    (∀ kr ∈ st.read_events,
      AuditEvent.mk (some kr.2)
        (kr.2.jobName.bind (fun j => alistGet st.query_events j)) ∈
        standalone_events st) ∧
    (∀ k q, (k, q) ∈ st.query_events →
      (AuditEvent.mk none (some q) ∈ standalone_events st ↔
        q.statementType ∉ READ_STATEMENT_TYPES)) := by
  constructor
  · intro kr hkr
    exact List.mem_append.mpr (Or.inl (List.mem_map.mpr ⟨kr, hkr, rfl⟩))
  · intro k q hq
    constructor
    · intro hmem
      rcases List.mem_append.mp hmem with hl | hr
      · rcases List.mem_map.mp hl with ⟨kr, _, habs⟩
        simp [AuditEvent.mk.injEq] at habs
      · rcases List.mem_map.mp hr with ⟨kq, hkq, heq⟩
        obtain ⟨_, hpred⟩ := List.mem_filter.mp hkq
        have hq2 : kq.2 = q := by
          simpa [AuditEvent.mk.injEq] using heq
        rw [hq2] at hpred
        simpa using hpred
    · intro hnot
      refine List.mem_append.mpr (Or.inr (List.mem_map.mpr ⟨(k, q), ?_, rfl⟩))
      exact List.mem_filter.mpr ⟨hq, by simpa using hnot⟩

/-- Witness for `c7_standalone_events_amended` on the concrete store. -/
theorem c7_standalone_events_amended_witness :
    AuditEvent.mk (some rC7)
      (rC7.jobName.bind (fun j => alistGet stC7.query_events j)) ∈
      standalone_events stC7 ∧
    (AuditEvent.mk none (some qC7) ∈ standalone_events stC7 ↔
      qC7.statementType ∉ READ_STATEMENT_TYPES) :=
  ⟨(c7_standalone_events_amended stC7).1 ("k1", rC7) (by decide),
   (c7_standalone_events_amended stC7).2 "j1" qC7 (by decide)⟩

/-- Extractor state during ingestion, instrumented with a count of
`FileBackedDict` write attempts so that an I/O failure oracle can be
consulted; the pure state is unchanged otherwise. -/
structure IngestState where
  ext : ExtState
  writeCount : Nat
deriving DecidableEq, Repr

/-- One persisted-write attempt: consult the failure oracle `wf` at the
current attempt index (the returned Bool is "this write raises"). -/
def write_attempt (wf : Nat → Bool) (st : IngestState) : IngestState × Bool :=
  ({ st with writeCount := st.writeCount + 1 }, wf st.writeCount)

/-- `store_column_accesses` with fallible writes: on a failing write the
exception propagates out of `_store_usage_event`, keeping all effects of the
writes that already succeeded. -/
def store_columns_exc (wf : Nat → Bool) (key : String) :
    List String → IngestState → IngestState × Except String Unit
  | [], st => (st, Except.ok ())
  | f :: rest, st =>
    let a := write_attempt wf st
    if a.2 then (a.1, Except.error "serialization failure")
    else
      store_columns_exc wf key rest
        { a.1 with ext := { a.1.ext with
            usage := { a.1.ext.usage with
              column_accesses := alistInsert a.1.ext.usage.column_accesses
                (mintUuid a.1.ext.uuidCounter) (key, f) },
            uuidCounter := a.1.ext.uuidCounter + 1 } }

/-- `store_read_branch` with fallible writes. -/
def store_read_branch_exc (cfg : Config) (tableRefs : List String)
    (wf : Nat → Bool) (re : ReadEvent) (st : IngestState) :
    IngestState × Except String Bool :=
  if re.resource ∉ tableRefs then
    ({ st with ext := { st.ext with
        num_usage_resources_dropped := st.ext.num_usage_resources_dropped + 1,
        dropped := st.ext.dropped ++ [re.resource] } }, Except.ok false)
  else if cfg.isTempTable re.resource then
    ({ st with ext := { st.ext with
        dropped := st.ext.dropped ++ [re.resource] } }, Except.ok false)
  else
    let key := mintUuid st.ext.uuidCounter
    let a := write_attempt wf st
    if a.2 then (a.1, Except.error "serialization failure")
    else
      let st2 :=
        { a.1 with ext := { a.1.ext with
            usage := { a.1.ext.usage with
              read_events := alistInsert a.1.ext.usage.read_events key re },
            uuidCounter := a.1.ext.uuidCounter + 1 } }
      match store_columns_exc wf key re.fieldsRead st2 with
      | (st3, Except.ok _) => (st3, Except.ok true)
      | (st3, Except.error m) => (st3, Except.error m)

/-- `store_query_branch` with fallible writes: the collision branch performs
one persisted write (the query-event upsert; the surrogate map is in
memory), the dedup branch two (the text, then the query-event upsert). -/
def store_query_branch_exc (md5f : String → String) (cfg : Config)
    (wf : Nat → Bool) (event : AuditEvent) (st : IngestState) :
    IngestState × Except String Bool :=
  match event.query_event with
  | none => (st, Except.ok false)
  | some qe =>
    match qe.job_name with
    | none => (st, Except.ok false)
    | some j =>
      if j = "" then (st, Except.ok false)
      else
        let q := qe.query.take cfg.max_query_length
        let query_hash := md5f q
        if ((alistGet st.ext.usage.queries query_hash).getD q) ≠ q then
          let key := mintUuid st.ext.uuidCounter
          let stU :=
            { st with ext := { st.ext with
                uuid_to_query := alistInsert st.ext.uuid_to_query key q,
                uuidCounter := st.ext.uuidCounter + 1,
                num_usage_query_hash_collisions :=
                  st.ext.num_usage_query_hash_collisions + 1 } }
          let a := write_attempt wf stU
          if a.2 then (a.1, Except.error "serialization failure")
          else
            ({ a.1 with ext := { a.1.ext with
                usage := { a.1.ext.usage with
                  query_events := alistInsert a.1.ext.usage.query_events j
                    { qe with query := key } } } }, Except.ok true)
        else
          let a := write_attempt wf st
          if a.2 then (a.1, Except.error "serialization failure")
          else
            let st2 :=
              { a.1 with ext := { a.1.ext with
                  usage := { a.1.ext.usage with
                    queries := alistInsert a.1.ext.usage.queries query_hash q } } }
            let b := write_attempt wf st2
            if b.2 then (b.1, Except.error "serialization failure")
            else
              ({ b.1 with ext := { b.1.ext with
                  usage := { b.1.ext.usage with
                    query_events := alistInsert b.1.ext.usage.query_events j
                      { qe with query := query_hash } } } }, Except.ok true)

/-- `_store_usage_event` with fallible persisted writes: identical control
flow to `store_usage_event`, plus an `Except` channel for write failures. -/
def store_usage_event_exc (md5f : String → String) (cfg : Config)
    (tableRefs : List String) (wf : Nat → Bool) (event : AuditEvent)
    (st : IngestState) : IngestState × Except String Bool :=
  match event.read_event with
  | some re =>
    if cfg.start_time ≤ re.timestamp ∧ re.timestamp < cfg.end_time then
      store_read_branch_exc cfg tableRefs wf re st
    else
      store_query_branch_exc md5f cfg wf event st
  | none => store_query_branch_exc md5f cfg wf event st

/-- Accumulated result of `_ingest_events`: final state, the number of events
aggregated, and the "store-event" error counter. -/
structure IngestRun where
  st : IngestState
  num_aggregated : Nat
  store_event_errors : Nat
deriving DecidableEq, Repr

/-- `BigQueryUsageExtractor._ingest_events` (usage.py lines 387-405): every
event is stored inside `try/except Exception` — a raising store increments
the "store-event" error counter and the loop continues with the next event;
the function always returns normally. -/
def ingest_events (md5f : String → String) (cfg : Config)
    (tableRefs : List String) (wf : Nat → Bool) (events : List AuditEvent)
    (run : IngestRun) : IngestRun :=
  events.foldl
    (fun r ev =>
      match store_usage_event_exc md5f cfg tableRefs wf ev r.st with
      | (st', Except.ok b) =>
        { st := st',
          num_aggregated := r.num_aggregated + (if b then 1 else 0),
          store_event_errors := r.store_event_errors }
      | (st', Except.error _) =>
        { st := st',
          num_aggregated := r.num_aggregated,
          store_event_errors := r.store_event_errors + 1 })
    run

/-- An in-window read event over known resource "res". -/
def reC8 : ReadEvent :=
  { resource := "res", timestamp := 5, actor_email := "u@x.com",
    fieldsRead := [], readReason := none, jobName := some "j1" }

/-- The C8 audit event: read-only, in window. -/
def evC8 : AuditEvent := AuditEvent.mk (some reC8) none

/-- Fresh ingestion accumulator. -/
def run0C8 : IngestRun :=
  { st := { ext := emptyExt, writeCount := 0 },
    num_aggregated := 0, store_event_errors := 0 }

/-- C8 counterexample: with a write-failure oracle failing exactly the first
persisted write, ingesting two identical in-window reads returns normally
with one "store-event" error counted and the second event stored — the
individual store-write I/O failure is absorbed as a per-event error and the
run continues, instead of propagating and aborting. -/
theorem c8_store_write_failure_absorbed_cex :
    (ingest_events md5C9 cfgC6 ["res"] (fun n => decide (n = 0))
        [evC8, evC8] run0C8).store_event_errors = 1 ∧
    (ingest_events md5C9 cfgC6 ["res"] (fun n => decide (n = 0))
        [evC8, evC8] run0C8).num_aggregated = 1 ∧
    (ingest_events md5C9 cfgC6 ["res"] (fun n => decide (n = 0))
        [evC8, evC8] run0C8).st.ext.usage.read_events.length = 1 :=
  ⟨rfl, rfl, rfl⟩

/-- C8 amended: when storing an event raises (e.g. an I/O or serialization
failure on a persisted write), `_ingest_events` catches the exception,
increments the "store-event" error counter, keeps the effects of the writes
that already succeeded, and continues ingesting the remaining events; the
failure never aborts the run. -/
theorem c8_store_write_failure_amended (md5f : String → String) (cfg : Config)
    (tableRefs : List String) (wf : Nat → Bool) (ev : AuditEvent)
    (events : List AuditEvent) (r : IngestRun) (m : String)
    (h : (store_usage_event_exc md5f cfg tableRefs wf ev r.st).2 =
      Except.error m) :
    ingest_events md5f cfg tableRefs wf (ev :: events) r =
      ingest_events md5f cfg tableRefs wf events
        { st := (store_usage_event_exc md5f cfg tableRefs wf ev r.st).1,
          num_aggregated := r.num_aggregated,
          store_event_errors := r.store_event_errors + 1 } := by
  unfold ingest_events
  rw [List.foldl_cons]
  rcases hpair : store_usage_event_exc md5f cfg tableRefs wf ev r.st with ⟨st', res⟩
  rw [hpair] at h
  simp only at h
  cases res with
  | ok b => exact absurd h (by simp)
  | error m' => simp

/-- Witness for `c8_store_write_failure_amended`: with an always-failing
write oracle, the first event's failure is counted and ingestion proceeds. -/
theorem c8_store_write_failure_amended_witness :
    ingest_events md5C9 cfgC6 ["res"] (fun _ => true) [evC8] run0C8 =
      ingest_events md5C9 cfgC6 ["res"] (fun _ => true) []
        { st := (store_usage_event_exc md5C9 cfgC6 ["res"] (fun _ => true)
            evC8 run0C8.st).1,
          num_aggregated := run0C8.num_aggregated,
          store_event_errors := run0C8.store_event_errors + 1 } :=
  c8_store_write_failure_amended md5C9 cfgC6 ["res"] (fun _ => true) evC8 []
    run0C8 "serialization failure" rfl
